import Mathlib

/-!
# Verification of `warp-sessions` session binding (`src/session.rs`)

Shallow embedding of the session binder: `WithSession::new` (binding a
session to a reply, running the required store operation and computing the
final cookie options) and `WithSession::into_response` (attaching the
`Set-Cookie` header to the outgoing response).

The async store calls are modelled as pure fallible functions
(`Except String _` stands for `async_session::Result<_>`, the failure
payload being the display of the underlying `anyhow` error).  To reason
about which store operations an invocation performs, the embedded `new`
additionally returns the list of store calls it made, in order.
-/

namespace WarpSessions

/-- The data of `async_session::Session` visible to this crate:
an id, a data bag, and the two derived flags `destroyed` and `changed`
observed through `is_destroyed()` and `data_changed()`. -/
structure Session where
  id : String
  data : List (String × String)
  destroyed : Bool
  changed : Bool
deriving Repr, DecidableEq

/-- `Session::is_destroyed()`. -/
def Session.is_destroyed (s : Session) : Bool := s.destroyed

/-- `Session::data_changed()`. -/
def Session.data_changed (s : Session) : Bool := s.changed

/-- Modelled from the spec: the `CookieOptions` struct of the crate's
`cookie.rs` is not part of the sources; per the spec's data model it holds
the cookie value (the session id to emit, or empty), max-age in seconds,
plus the static attributes name, path, domain, secure, http-only and
same-site, set once at configuration time. -/
structure CookieOptions where
  cookie_name : String
  cookie_value : Option String
  max_age : Option Nat
  path : Option String
  domain : Option String
  secure : Bool
  http_only : Bool
  same_site : Option String
deriving Repr, DecidableEq

/-- Modelled from the spec: `CookieOptions::to_string`, the rendering of
the options as a `Set-Cookie` header value
(`<name>=<value>; Max-Age=<n>; [Path=...; Domain=...; Secure; HttpOnly;
SameSite=...]`), missing from the sources together with `cookie.rs`. -/
def CookieOptions.render (co : CookieOptions) : String :=
  co.cookie_name ++ "=" ++ co.cookie_value.getD "" ++
  (match co.max_age with
   | some n => "; Max-Age=" ++ toString n
   | none => "") ++
  (match co.path with
   | some p => "; Path=" ++ p
   | none => "") ++
  (match co.domain with
   | some d => "; Domain=" ++ d
   | none => "") ++
  (if co.secure then "; Secure" else "") ++
  (if co.http_only then "; HttpOnly" else "") ++
  (match co.same_site with
   | some s => "; SameSite=" ++ s
   | none => "")

/-- The `SessionStore` trait of `async_session`: four fallible operations.
Each is modelled as a pure function so that a given store is a
deterministic collaborator. -/
structure SessionStore where
  load_session : String → Except String (Option Session)
  store_session : Session → Except String (Option String)
  destroy_session : Session → Except String Unit
  clear_store : Unit → Except String Unit

/-- `SessionWithStore`: the session together with its backing store and
cookie options, as passed to the binder. -/
structure SessionWithStore where
  session : Session
  session_store : SessionStore
  cookie_options : CookieOptions

/-- The variants of `SessionError` (`error.rs`) that `session.rs`
constructs: `DestroyError { source }` and `StoreError { source }`. -/
inductive SessionError where
  | DestroyError (source : String)
  | StoreError (source : String)
deriving Repr, DecidableEq

/-- One store operation invoked during binding, for the call trace. -/
inductive StoreCall where
  | load (cookie_value : String)
  | store (s : Session)
  | destroy (s : Session)
  | clear
deriving Repr, DecidableEq

/-- `WithSession<T>`: a reply together with the resolved cookie options. -/
structure WithSession (T : Type) where
  reply : T
  cookie_options : CookieOptions

/-- `WithSession::new`: binds a session to a reply.  If the session is
destroyed, the cookie value is set to the empty string with max-age 0 and
`destroy_session` is called; otherwise, if the session data changed,
`store_session` is called and a returned id becomes the cookie value.
Alongside the result, the list of store calls made is returned. -/
def WithSession.new {T : Type} (reply : T) (sws : SessionWithStore) :
    Except SessionError (WithSession T) × List StoreCall :=
  let cookie_options := sws.cookie_options
  if sws.session.is_destroyed then
    let cookie_options :=
      { cookie_options with cookie_value := some "", max_age := some 0 }
    match sws.session_store.destroy_session sws.session with
    | .error source =>
        (.error (SessionError.DestroyError source), [StoreCall.destroy sws.session])
    | .ok _ =>
        (.ok { reply := reply, cookie_options := cookie_options },
         [StoreCall.destroy sws.session])
  else
    if sws.session.data_changed then
      match sws.session_store.store_session sws.session with
      | .error source =>
          (.error (SessionError.StoreError source), [StoreCall.store sws.session])
      | .ok (some sid) =>
          (.ok { reply := reply,
                 cookie_options := { cookie_options with cookie_value := some sid } },
           [StoreCall.store sws.session])
      | .ok none =>
          (.ok { reply := reply, cookie_options := cookie_options },
           [StoreCall.store sws.session])
    else
      (.ok { reply := reply, cookie_options := cookie_options }, [])

/-- An HTTP response: status, header list (appended in order), body. -/
structure Response where
  status : Nat
  headers : List (String × String)
  body : String
deriving Repr, DecidableEq

/-- Validity of a byte of an `http::HeaderValue`: visible ASCII, space or
horizontal tab (`HeaderValue::from_str` rejects anything else). -/
def headerValueValidChar (c : Char) : Bool :=
  (32 ≤ c.toNat && c.toNat < 127) || c.toNat == 9

/-- `http::header::HeaderValue::from_str`: succeeds exactly when every
character of the string is a valid header-value byte. -/
def headerValueFromStr (s : String) : Except Unit String :=
  if s.toList.all headerValueValidChar then .ok s else .error ()

/-- The result of producing the outgoing response: either a response, or a
Rust panic (the `.unwrap()` in `into_response` firing). -/
inductive RenderResult where
  | panicked
  | ok (r : Response)
deriving Repr, DecidableEq

/-- `WithSession::into_response` (`impl Reply for WithSession<T>`): turn
the inner reply into a response via `tr` (the inner `Reply`
implementation); if the cookie value is set, append one `Set-Cookie`
header built with `HeaderValue::from_str(&cookie_options.to_string())
.unwrap()` — a failing conversion is a panic. -/
def WithSession.into_response {T : Type} (tr : T → Response)
    (w : WithSession T) : RenderResult :=
  let res := tr w.reply
  match w.cookie_options.cookie_value with
  | some _ =>
      match headerValueFromStr w.cookie_options.render with
      | .error _ => RenderResult.panicked
      | .ok v =>
          RenderResult.ok
            { res with headers := res.headers ++ [("Set-Cookie", v)] }
  | none => RenderResult.ok res

/-! ### Concrete instances used by witnesses and counterexamples -/

/-- Default cookie options: no value, default max-age of 600 seconds. -/
def defaultCookieOptions : CookieOptions :=
  { cookie_name := "sid"
    cookie_value := none
    max_age := some 600
    path := some "/"
    domain := none
    secure := false
    http_only := true
    same_site := none }

/-- A store whose operations all succeed; `store_session` returns a fresh
id. -/
def okStore : SessionStore :=
  { load_session := fun _ => .ok none
    store_session := fun _ => .ok (some "newid42")
    destroy_session := fun _ => .ok ()
    clear_store := fun _ => .ok () }

/-- A store whose `store_session` reports that the backend reused the
existing id (returns no new id). -/
def reuseStore : SessionStore :=
  { load_session := fun _ => .ok none
    store_session := fun _ => .ok none
    destroy_session := fun _ => .ok ()
    clear_store := fun _ => .ok () }

/-- A store whose mutating operations fail with a transport error. -/
def failStore : SessionStore :=
  { load_session := fun _ => .error "transport error"
    store_session := fun _ => .error "transport error"
    destroy_session := fun _ => .error "transport error"
    clear_store := fun _ => .error "transport error" }

/-- A destroyed session. -/
def destroyedSession : Session :=
  { id := "s1", data := [], destroyed := true, changed := true }

/-- A changed, not destroyed session. -/
def changedSession : Session :=
  { id := "s2", data := [("key", "value")], destroyed := false, changed := true }

/-- An untouched session. -/
def cleanSession : Session :=
  { id := "s3", data := [], destroyed := false, changed := false }

/-- A plain textual reply together with its response conversion. -/
def htmlReply : Response :=
  { status := 200, headers := [("Content-Type", "text/html")], body := "" }

/-- A destroyed session with a successful store. -/
def destroyedWS : SessionWithStore :=
  { session := destroyedSession, session_store := okStore,
    cookie_options := defaultCookieOptions }

/-- A changed session with a store that returns a fresh id. -/
def changedWS : SessionWithStore :=
  { session := changedSession, session_store := okStore,
    cookie_options := defaultCookieOptions }

/-- An untouched session with no resolver-set cookie value. -/
def cleanWS : SessionWithStore :=
  { session := cleanSession, session_store := okStore,
    cookie_options := defaultCookieOptions }

/-- An untouched session whose incoming cookie options already carry a
value set by the resolver. -/
def cleanWSPreset : SessionWithStore :=
  { session := cleanSession, session_store := okStore,
    cookie_options := { defaultCookieOptions with cookie_value := some "resolverid" } }

/-- A changed session whose store reuses the id, with a resolver-set
cookie value already present. -/
def changedWSPreset : SessionWithStore :=
  { session := changedSession, session_store := reuseStore,
    cookie_options := { defaultCookieOptions with cookie_value := some "resolverid" } }

/-- A changed session whose store reuses the id, with no resolver-set
cookie value. -/
def changedWSReuse : SessionWithStore :=
  { session := changedSession, session_store := reuseStore,
    cookie_options := defaultCookieOptions }

/-- A bound reply whose cookie name contains a newline, so the rendered
header value is rejected by `HeaderValue::from_str`. -/
def badCookieWS : WithSession Response :=
  { reply := htmlReply,
    cookie_options :=
      { defaultCookieOptions with
          cookie_name := "sid\n", cookie_value := some "x" } }

/-- A bound reply with a valid, set cookie value. -/
def goodCookieWS : WithSession Response :=
  { reply := htmlReply,
    cookie_options := { defaultCookieOptions with cookie_value := some "abc" } }

/-- The response obtained by rendering `goodCookieWS`. -/
def renderedGood : Response :=
  { status := 200
    headers := [("Content-Type", "text/html"),
                ("Set-Cookie", "sid=abc; Max-Age=600; Path=/; HttpOnly")]
    body := "" }

/-- A destroyed session whose store fails. -/
def destroyedFailWS : SessionWithStore :=
  { session := destroyedSession, session_store := failStore,
    cookie_options := defaultCookieOptions }

/-- A changed session whose store fails. -/
def changedFailWS : SessionWithStore :=
  { session := changedSession, session_store := failStore,
    cookie_options := defaultCookieOptions }

/-! ### Claims -/

/-- C1: for every session with `is_destroyed() = true` (regardless of
`data_changed()`), `WithSession::new` calls `destroy_session` exactly once
and never `store_session`, and on success the resulting cookie value is
the empty string with max-age 0. -/
theorem bind_destroyed_destroys_once_and_expires_cookie {T : Type}
    (reply : T) (sws : SessionWithStore)
    (hd : sws.session.is_destroyed = true) :
    (WithSession.new reply sws).2 = [StoreCall.destroy sws.session] ∧
    ∀ w, (WithSession.new reply sws).1 = .ok w →
      w.cookie_options.cookie_value = some "" ∧
      w.cookie_options.max_age = some 0 := by
  unfold WithSession.new
  rw [hd]
  cases h : sws.session_store.destroy_session sws.session <;> simp [h]

theorem bind_destroyed_witness :
    destroyedWS.session.is_destroyed = true ∧
    ((WithSession.new htmlReply destroyedWS).2 =
        [StoreCall.destroy destroyedWS.session] ∧
      ∀ w, (WithSession.new htmlReply destroyedWS).1 = .ok w →
        w.cookie_options.cookie_value = some "" ∧
        w.cookie_options.max_age = some 0) :=
  ⟨rfl, bind_destroyed_destroys_once_and_expires_cookie htmlReply destroyedWS rfl⟩

/-- C2: for every session with `data_changed() = true` and
`is_destroyed() = false`, `WithSession::new` calls `store_session` exactly
once and never `destroy_session`; if the store returns an id, the
resulting cookie value is that id and max-age stays the configured
value. -/
theorem bind_changed_stores_once_and_sets_returned_id {T : Type}
    (reply : T) (sws : SessionWithStore)
    (hc : sws.session.data_changed = true)
    (hd : sws.session.is_destroyed = false) :
    (WithSession.new reply sws).2 = [StoreCall.store sws.session] ∧
    ∀ sid, sws.session_store.store_session sws.session = .ok (some sid) →
      (WithSession.new reply sws).1 =
        .ok { reply := reply,
              cookie_options :=
                { sws.cookie_options with cookie_value := some sid } } := by
  unfold WithSession.new
  rw [hd, hc]
  cases h : sws.session_store.store_session sws.session with
  | error e => simp [h]
  | ok o => cases o <;> simp [h]

theorem bind_changed_witness :
    changedWS.session.data_changed = true ∧
    changedWS.session.is_destroyed = false ∧
    changedWS.session_store.store_session changedWS.session = .ok (some "newid42") ∧
    ((WithSession.new htmlReply changedWS).2 = [StoreCall.store changedWS.session] ∧
      ∀ sid, changedWS.session_store.store_session changedWS.session = .ok (some sid) →
        (WithSession.new htmlReply changedWS).1 =
          .ok { reply := htmlReply,
                cookie_options :=
                  { changedWS.cookie_options with cookie_value := some sid } }) :=
  ⟨rfl, rfl, rfl,
    bind_changed_stores_once_and_sets_returned_id htmlReply changedWS rfl rfl⟩

/-- C5: if the invoked store operation fails, `WithSession::new` returns
the matching typed error (`DestroyError` for a destroyed session,
`StoreError` for a changed one) carrying the underlying cause, and no
`WithSession` reply is produced. -/
theorem bind_store_failure_typed_error {T : Type}
    (reply : T) (sws : SessionWithStore) (e : String) :
    (sws.session.is_destroyed = true →
      sws.session_store.destroy_session sws.session = .error e →
      (WithSession.new reply sws).1 = .error (SessionError.DestroyError e)) ∧
    (sws.session.is_destroyed = false → sws.session.data_changed = true →
      sws.session_store.store_session sws.session = .error e →
      (WithSession.new reply sws).1 = .error (SessionError.StoreError e)) := by
  constructor
  · intro hd hf
    unfold WithSession.new
    rw [hd]
    simp [hf]
  · intro hd hc hf
    unfold WithSession.new
    rw [hd, hc]
    simp [hf]

theorem bind_store_failure_witness :
    (WithSession.new htmlReply destroyedFailWS).1 =
      .error (SessionError.DestroyError "transport error") ∧
    (WithSession.new htmlReply changedFailWS).1 =
      .error (SessionError.StoreError "transport error") :=
  ⟨(bind_store_failure_typed_error htmlReply destroyedFailWS "transport error").1
      rfl rfl,
    (bind_store_failure_typed_error htmlReply changedFailWS "transport error").2
      rfl rfl rfl⟩

/-- C6 counterexample: an untouched, undestroyed session makes zero store
calls, refuting "exactly one store call per invocation, never zero". -/
theorem bind_exactly_one_call_counterexample :
    cleanWS.session.is_destroyed = false ∧
    cleanWS.session.data_changed = false ∧
    (WithSession.new htmlReply cleanWS).2 = [] := ⟨rfl, rfl, rfl⟩

/-- C6 amended: every invocation of `WithSession::new` makes at most one
store call, and exactly one when the session is destroyed or changed. -/
theorem bind_at_most_one_call {T : Type} (reply : T) (sws : SessionWithStore) :
    (WithSession.new reply sws).2.length ≤ 1 ∧
    ((sws.session.is_destroyed = true ∨ sws.session.data_changed = true) →
      (WithSession.new reply sws).2.length = 1) := by
  unfold WithSession.new
  cases hd : sws.session.is_destroyed with
  | true =>
    cases h : sws.session_store.destroy_session sws.session <;> simp [h]
  | false =>
    cases hc : sws.session.data_changed with
    | true =>
      cases h : sws.session_store.store_session sws.session with
      | error e => simp [h]
      | ok o => cases o <;> simp [h]
    | false => simp

theorem bind_at_most_one_call_witness :
    (WithSession.new htmlReply destroyedWS).2.length ≤ 1 ∧
    ((destroyedWS.session.is_destroyed = true ∨
        destroyedWS.session.data_changed = true) →
      (WithSession.new htmlReply destroyedWS).2.length = 1) :=
  bind_at_most_one_call htmlReply destroyedWS

/-- C9: `WithSession::new` passes every field of the incoming
`CookieOptions` other than `cookie_value` and `max_age` through
unchanged. -/
theorem bind_preserves_static_attributes {T : Type}
    (reply : T) (sws : SessionWithStore) (w : WithSession T)
    (h : (WithSession.new reply sws).1 = .ok w) :
    w.cookie_options.cookie_name = sws.cookie_options.cookie_name ∧
    w.cookie_options.path = sws.cookie_options.path ∧
    w.cookie_options.domain = sws.cookie_options.domain ∧
    w.cookie_options.secure = sws.cookie_options.secure ∧
    w.cookie_options.http_only = sws.cookie_options.http_only ∧
    w.cookie_options.same_site = sws.cookie_options.same_site := by
  unfold WithSession.new at h
  cases hd : sws.session.is_destroyed <;> rw [hd] at h
  · cases hc : sws.session.data_changed <;> rw [hc] at h
    · simp at h
      simp [← h]
    · cases hs : sws.session_store.store_session sws.session with
      | error e => simp [hs] at h
      | ok o =>
        cases o <;> simp [hs] at h <;> simp [← h]
  · cases hs : sws.session_store.destroy_session sws.session <;>
      simp [hs] at h
    simp [← h]

theorem bind_preserves_static_attributes_witness :
    ∃ w, (WithSession.new htmlReply changedWS).1 = .ok w ∧
      (w.cookie_options.cookie_name = changedWS.cookie_options.cookie_name ∧
        w.cookie_options.path = changedWS.cookie_options.path ∧
        w.cookie_options.domain = changedWS.cookie_options.domain ∧
        w.cookie_options.secure = changedWS.cookie_options.secure ∧
        w.cookie_options.http_only = changedWS.cookie_options.http_only ∧
        w.cookie_options.same_site = changedWS.cookie_options.same_site) :=
  ⟨{ reply := htmlReply,
     cookie_options :=
       { changedWS.cookie_options with cookie_value := some "newid42" } },
    rfl, bind_preserves_static_attributes htmlReply changedWS _ rfl⟩

/-- C10: `WithSession::new` never invokes `load_session` or `clear_store`:
every store call in the trace is a `destroy_session` or a `store_session`
call. -/
theorem bind_never_loads_or_clears {T : Type}
    (reply : T) (sws : SessionWithStore) :
    ((WithSession.new reply sws).2.all fun c =>
      match c with
      | StoreCall.store _ => true
      | StoreCall.destroy _ => true
      | StoreCall.load _ => false
      | StoreCall.clear => false) = true := by
  unfold WithSession.new
  cases hd : sws.session.is_destroyed
  · cases hc : sws.session.data_changed
    · simp
    · cases h : sws.session_store.store_session sws.session with
      | error e => simp [h]
      | ok o => cases o <;> simp [h]
  · cases h : sws.session_store.destroy_session sws.session <;> simp [h]

/-- C3 counterexample: a changed, undestroyed session whose store returns
no id, with a resolver-set incoming cookie value: the resulting cookie
value is *not* unset and a `Set-Cookie` header *is* emitted. -/
theorem bind_store_none_counterexample :
    changedWSPreset.session.data_changed = true ∧
    changedWSPreset.session.is_destroyed = false ∧
    changedWSPreset.session_store.store_session changedWSPreset.session = .ok none ∧
    Except.map (fun w => WithSession.into_response (fun r => r) w)
        (WithSession.new htmlReply changedWSPreset).1 =
      Except.ok (RenderResult.ok
        { status := 200
          headers := [("Content-Type", "text/html"),
                      ("Set-Cookie", "sid=resolverid; Max-Age=600; Path=/; HttpOnly")]
          body := "" }) := by
  refine ⟨rfl, rfl, rfl, ?_⟩
  rfl

/-- C3 amended: when a changed, undestroyed session's `store_session`
returns no id, the binder leaves the incoming cookie options unchanged
(the previous cookie value as-is); hence no `Set-Cookie` header is emitted
only when the incoming cookie value was unset. -/
theorem bind_store_none_preserves_cookie_options {T : Type}
    (tr : T → Response) (reply : T) (sws : SessionWithStore)
    (hc : sws.session.data_changed = true)
    (hd : sws.session.is_destroyed = false)
    (hs : sws.session_store.store_session sws.session = .ok none) :
    (WithSession.new reply sws).1 =
      .ok { reply := reply, cookie_options := sws.cookie_options } ∧
    (sws.cookie_options.cookie_value = none →
      WithSession.into_response tr
          { reply := reply, cookie_options := sws.cookie_options } =
        RenderResult.ok (tr reply)) := by
  constructor
  · unfold WithSession.new
    rw [hd, hc]
    simp [hs]
  · intro hv
    unfold WithSession.into_response
    simp [hv]

theorem bind_store_none_witness :
    changedWSReuse.session.data_changed = true ∧
    changedWSReuse.session.is_destroyed = false ∧
    changedWSReuse.session_store.store_session changedWSReuse.session = .ok none ∧
    ((WithSession.new htmlReply changedWSReuse).1 =
        .ok { reply := htmlReply, cookie_options := changedWSReuse.cookie_options } ∧
      (changedWSReuse.cookie_options.cookie_value = none →
        WithSession.into_response (fun r => r)
            { reply := htmlReply, cookie_options := changedWSReuse.cookie_options } =
          RenderResult.ok htmlReply)) :=
  ⟨rfl, rfl, rfl,
    bind_store_none_preserves_cookie_options (fun r => r) htmlReply changedWSReuse
      rfl rfl rfl⟩

/-- C4 counterexample: an untouched, undestroyed session whose incoming
cookie options already carry a resolver-set value: the final response
*does* carry a `Set-Cookie` header and differs from the underlying
reply's response. -/
theorem bind_unchanged_counterexample :
    cleanWSPreset.session.data_changed = false ∧
    cleanWSPreset.session.is_destroyed = false ∧
    Except.map (fun w => WithSession.into_response (fun r => r) w)
        (WithSession.new htmlReply cleanWSPreset).1 =
      Except.ok (RenderResult.ok
        { status := 200
          headers := [("Content-Type", "text/html"),
                      ("Set-Cookie", "sid=resolverid; Max-Age=600; Path=/; HttpOnly")]
          body := "" }) := by
  refine ⟨rfl, rfl, ?_⟩
  rfl

/-- C4 amended: for an untouched, undestroyed session the binder makes no
store call and passes the incoming cookie options through unchanged; when
the incoming cookie value is unset, the underlying reply's response is
forwarded unmodified with no `Set-Cookie` header added. -/
theorem bind_unchanged_no_call_passthrough {T : Type}
    (tr : T → Response) (reply : T) (sws : SessionWithStore)
    (hc : sws.session.data_changed = false)
    (hd : sws.session.is_destroyed = false) :
    (WithSession.new reply sws).2 = [] ∧
    (WithSession.new reply sws).1 =
      .ok { reply := reply, cookie_options := sws.cookie_options } ∧
    (sws.cookie_options.cookie_value = none →
      WithSession.into_response tr
          { reply := reply, cookie_options := sws.cookie_options } =
        RenderResult.ok (tr reply)) := by
  refine ⟨?_, ?_, ?_⟩
  · unfold WithSession.new
    rw [hd, hc]
    simp
  · unfold WithSession.new
    rw [hd, hc]
    simp
  · intro hv
    unfold WithSession.into_response
    simp [hv]

theorem bind_unchanged_witness :
    cleanWS.session.data_changed = false ∧
    cleanWS.session.is_destroyed = false ∧
    ((WithSession.new htmlReply cleanWS).2 = [] ∧
      (WithSession.new htmlReply cleanWS).1 =
        .ok { reply := htmlReply, cookie_options := cleanWS.cookie_options } ∧
      (cleanWS.cookie_options.cookie_value = none →
        WithSession.into_response (fun r => r)
            { reply := htmlReply, cookie_options := cleanWS.cookie_options } =
          RenderResult.ok htmlReply)) :=
  ⟨rfl, rfl,
    bind_unchanged_no_call_passthrough (fun r => r) htmlReply cleanWS rfl rfl⟩

/-- C7 counterexample: cookie options whose name contains a control
character make `into_response` panic (the `.unwrap()` on
`HeaderValue::from_str` fires) instead of failing with a typed
`CookieEncodingError` — indeed `SessionError` has no such variant. -/
theorem into_response_panics_counterexample :
    (badCookieWS.cookie_options.cookie_value = some "x") ∧
    headerValueFromStr badCookieWS.cookie_options.render = .error () ∧
    WithSession.into_response (fun r => r) badCookieWS =
      RenderResult.panicked := ⟨rfl, rfl, rfl⟩

/-- C7 amended: when the resolved cookie value is set but the rendered
cookie attributes are not a valid header value, producing the final
response panics (via `.unwrap()`), rather than returning a typed
error. -/
theorem into_response_invalid_header_panics {T : Type}
    (tr : T → Response) (w : WithSession T) (v : String)
    (hv : w.cookie_options.cookie_value = some v)
    (hb : headerValueFromStr w.cookie_options.render = .error ()) :
    WithSession.into_response tr w = RenderResult.panicked := by
  unfold WithSession.into_response
  simp [hv, hb]

theorem into_response_invalid_header_witness :
    (badCookieWS.cookie_options.cookie_value = some "x") ∧
    headerValueFromStr badCookieWS.cookie_options.render = .error () ∧
    WithSession.into_response (fun r => r) badCookieWS =
      RenderResult.panicked :=
  ⟨rfl, rfl,
    into_response_invalid_header_panics (fun r => r) badCookieWS "x" rfl rfl⟩

/-- C8: whenever `into_response` produces a response (does not panic), it
equals the underlying reply's response with exactly one `Set-Cookie`
header appended if the cookie value is set, and is exactly the underlying
reply's response (no header added) if the value is unset. -/
theorem into_response_header_iff_value {T : Type}
    (tr : T → Response) (w : WithSession T) (r : Response)
    (h : WithSession.into_response tr w = RenderResult.ok r) :
    (w.cookie_options.cookie_value = none ∧ r = tr w.reply) ∨
    ((∃ v, w.cookie_options.cookie_value = some v) ∧
      r.headers = (tr w.reply).headers ++
        [("Set-Cookie", w.cookie_options.render)]) := by
  unfold WithSession.into_response at h
  cases hv : w.cookie_options.cookie_value with
  | none =>
    left
    rw [hv] at h
    simp at h
    exact ⟨rfl, h.symm⟩
  | some v =>
    right
    refine ⟨⟨v, rfl⟩, ?_⟩
    rw [hv] at h
    unfold headerValueFromStr at h
    by_cases hall : w.cookie_options.render.toList.all headerValueValidChar = true
    · rw [if_pos hall] at h
      simp at h
      rw [← h]
    · rw [if_neg hall] at h
      simp at h

theorem into_response_header_iff_value_witness :
    (WithSession.into_response (fun r => r) goodCookieWS =
      RenderResult.ok renderedGood) ∧
    ((goodCookieWS.cookie_options.cookie_value = none ∧
        renderedGood = goodCookieWS.reply) ∨
      ((∃ v, goodCookieWS.cookie_options.cookie_value = some v) ∧
        renderedGood.headers = goodCookieWS.reply.headers ++
          [("Set-Cookie", goodCookieWS.cookie_options.render)])) :=
  ⟨rfl, into_response_header_iff_value (fun r => r) goodCookieWS renderedGood rfl⟩

end WarpSessions
